import Mathlib

/-!
# Verification of the Dahua-camera-events-to-MQTT bridge

Shallow embedding of `src/dahua_mqtt.py` (classes `DahuaMQTT` and
`DahuaCamera`).  Pure functions below are direct translations of the Python
methods; the worker loop of `DahuaMQTT.thread_process` is embedded as a step
relation on per-camera connection states.  Python wall-clock times
(`time.time()`) are modelled as natural numbers; byte chunks are modelled by
their decoded strings (the failing inputs used below are plain ASCII, where
byte offsets and character offsets coincide and `decode("utf-8",
errors="ignore")` is the identity).
-/

namespace DahuaMqtt

/-! ## Python dictionaries of strings

`dict()` objects with string keys and values, as built by `on_receive` and
`on_alarm`, are insertion-ordered association lists: assignment to an existing
key overwrites the value in place, assignment to a fresh key appends. -/

/-- A Python `dict` of strings: insertion-ordered association list. -/
abbrev Dict := List (String × String)

/-- Python `d[k] = v`: overwrite in place when the key exists, append
otherwise. -/
def dictInsert (d : Dict) (k v : String) : Dict :=
  if d.any (fun kv => kv.1 = k) then
    d.map (fun kv => if kv.1 = k then (kv.1, v) else kv)
  else
    d ++ [(k, v)]

/-- Python `d[k]` / `d.get(k)`: value at the first (only) occurrence of the
key, if present. -/
def dictGet (d : Dict) (k : String) : Option String :=
  (d.find? (fun kv => kv.1 = k)).map Prod.snd

/-! ## Python string primitives

Translations of the `str` methods the source uses (`split`, `startswith`,
`lower`, `strip`).  They are written by structural recursion over the
character list of the string so that every concrete instance reduces inside
the kernel. -/

/-- Worker for `pySplit`: scan for the (non-empty) separator, emitting the
accumulated characters each time it is found.  The fuel starts at the length
of the string, which each step strictly consumes, so the fuel-exhausted case
is never reached on the initial call. -/
def pySplitAux (sep : List Char) : Nat → List Char → List Char → List (List Char)
  | 0, s, acc => [acc.reverse ++ s]
  | _ + 1, [], acc => [acc.reverse]
  | n + 1, c :: rest, acc =>
    if sep.isPrefixOf (c :: rest) then
      acc.reverse :: pySplitAux sep n (List.drop sep.length (c :: rest)) []
    else
      pySplitAux sep n rest (c :: acc)

/-- Python `s.split(sep)` for a non-empty separator: split on every
left-to-right non-overlapping occurrence; `"".split(sep) == [""]` and
adjacent separators yield empty fields. -/
def pySplit (sep s : String) : List String :=
  (pySplitAux sep.data s.data.length s.data []).map String.mk

/-- Python `s.startswith(pre)`. -/
def pyStartsWith (s pre : String) : Bool :=
  pre.data.isPrefixOf s.data

/-- Python `s.lower()` (the keys handled here are ASCII). -/
def pyLower (s : String) : String :=
  String.mk (s.data.map Char.toLower)

/-! ## Camera configuration

One entry of the `cameras` list of the app configuration (the fields
`on_receive`, `parse_event` and `on_alarm` actually read). -/

/-- Per-camera configuration: `self.camera` of `DahuaCamera`. -/
structure Camera where
  host : String
  topic : String
  /-- Comma-separated whitelist string, the `events` configuration value. -/
  events : String
deriving Repr, DecidableEq

/-! ## Observable effects

Each constructor corresponds to one effectful statement of `DahuaCamera`:
the two statements of `on_connect` (the log line and `self.connected = True`),
the two statements of the publish loop of `on_alarm` (`self.hass.log(...)` and
`self.hass.call_service("mqtt/publish", ...)`), and the `self.hass.log("Failed
to parse: ...")` of the `except` clause of `on_receive`. -/

inductive Effect where
  /-- `self.hass.log("[host] OnConnect()")` in `on_connect`. -/
  | logConnect (host : String)
  /-- `self.connected = True` in `on_connect`. -/
  | setConnected (value : Bool)
  /-- `self.hass.log("[host] Publishing MQTT. topic=..., payload=...")`. -/
  | logPublish (host topic payload : String)
  /-- `self.hass.call_service("mqtt/publish", topic=topic, payload=payload)`. -/
  | publish (topic payload : String)
  /-- `self.hass.log("Failed to parse: " + str(ex))` in `on_receive`. -/
  | logParseFailure (msg : String)
deriving Repr, DecidableEq

/-- The `call_service("mqtt/publish", ...)` calls of an effect list, as
(topic, payload) pairs in order. -/
def publishesOf (effs : List Effect) : List (String × String) :=
  effs.filterMap fun e =>
    match e with
    | .publish t p => some (t, p)
    | _ => none

/-! ## `DahuaCamera.on_alarm` -/

/-- Python `s.strip("/")`: remove every leading and trailing `/`. -/
def stripSlashes (s : String) : String :=
  String.mk (((s.data.dropWhile (fun c => c == '/')).reverse.dropWhile
    (fun c => c == '/')).reverse)

/-- `json.dumps(state)` for a `dict` of strings: keys in insertion order with
the default separators.  (Escaping of special characters inside the strings is
not modelled; no input considered here contains any.) -/
def jsonDumps (d : Dict) : String :=
  "\x7b" ++ String.intercalate ", "
    (d.map fun kv => "\"" ++ kv.1 ++ "\": \"" ++ kv.2 ++ "\"") ++ "\x7d"

/-- The body of the `for topic, payload in mqtt_data.items()` loop of
`on_alarm`: strip `/` from the topic, log, publish. -/
def publishEffects (host : String) : List (String × String) → List Effect
  | [] => []
  | (t, p) :: rest =>
      .logPublish host (stripSlashes t) p :: .publish (stripSlashes t) p ::
        publishEffects host rest

/-- `DahuaCamera.on_alarm(state)`.  The two topics are built as the keys of a
single `dict` literal: `self.camera["topic"]` mapping to `json.dumps(state)`,
and `self.camera["topic"] + state["code"]` (plain string concatenation)
mapping to `state["action"]`.  A missing `code` or `action` key raises
`KeyError` (caught by the caller's `except`). -/
def on_alarm (cam : Camera) (state : Dict) : Except String (List Effect) :=
  match dictGet state "code" with
  | none => .error "KeyError: code"
  | some code =>
    match dictGet state "action" with
    | none => .error "KeyError: action"
    | some action =>
      let mqtt_data : Dict :=
        dictInsert (dictInsert [] cam.topic (jsonDumps state))
          (cam.topic ++ code) action
      .ok (publishEffects cam.host mqtt_data)

/-! ## `DahuaCamera.parse_event` -/

/-- `DahuaCamera.parse_event(alarm)`: drop the record unless `alarm["code"]`
occurs in `self.camera["events"].split(',')` (exact string match); otherwise
forward it to `on_alarm`. -/
def parse_event (cam : Camera) (alarm : Dict) : Except String (List Effect) :=
  match dictGet alarm "code" with
  | none => .error "KeyError: code"
  | some code =>
    if code ∈ pySplit "," cam.events then on_alarm cam alarm
    else .ok []

/-! ## `DahuaCamera.on_receive` -/

/-- The `for keyval in line.split(';')` loop of `on_receive`: each segment is
destructured by `key, val = keyval.split('=')` (a `ValueError` unless the
split yields exactly two parts) and stored as `alarm[key.lower()] = val`. -/
def parsePairs : List String → Dict → Except String Dict
  | [], acc => .ok acc
  | kv :: rest, acc =>
    match pySplit "=" kv with
    | [k, v] => parsePairs rest (dictInsert acc (pyLower k) v)
    | [_] => .error "not enough values to unpack (expected 2, got 1)"
    | _ => .error "too many values to unpack (expected 2)"

/-- One iteration of the `for line in decoded_data.split("\r\n")` loop of
`on_receive`: recognize the HTTP success status line, skip lines without the
`Code=` marker, and parse marked lines inside the `try`/`except` that logs any
exception as a parse failure. -/
def processLine (cam : Camera) (line : String) : List Effect :=
  (if line = "HTTP/1.1 200 OK" then
    [.logConnect cam.host, .setConnected true]
  else []) ++
  (if pyStartsWith line "Code=" then
    match parsePairs (pySplit ";" line) [] with
    | .error e => [.logParseFailure ("Failed to parse: " ++ e)]
    | .ok alarm =>
      match parse_event cam alarm with
      | .error e => [.logParseFailure ("Failed to parse: " ++ e)]
      | .ok effs => effs
  else [])

/-- The whole line loop of `on_receive`, effects in order. -/
def processLines (cam : Camera) : List String → List Effect
  | [] => []
  | l :: ls => processLine cam l ++ processLines cam ls

/-- `DahuaCamera.on_receive(data)`: split the decoded chunk on `"\r\n"` and
process each line.  No state other than `self.connected` is touched and no
byte of an unterminated trailing line is carried over to the next call. -/
def on_receive (cam : Camera) (data : String) : List Effect :=
  processLines cam (pySplit "\r\n" data)

/-- The camera of the module docstring's example configuration, whitelisting
`VideoMotion` and `VideoBlind`. -/
def cam0 : Camera :=
  { host := "192.168.0.1", topic := "cameras/1",
    events := "VideoMotion,VideoBlind" }

/-! ## The worker loop of `DahuaMQTT.thread_process`

The reconciliation block of `thread_process` (the body of
`if num_handles != self.num_curlobj:`) is embedded as a transition system over
the list of per-camera connection states.  `time.time()` values are natural
numbers.  `initialize` registers every camera's curl handle with the shared
`CurlMulti` object; the reconciliation block marks completed/errored transfers
disconnected (`camera.on_disconnect(...)` followed by
`camera.reconnect = time.time() + 5`), and the sweep re-arms every camera whose
deadline has passed by `remove_handle` immediately followed by `add_handle`. -/

/-- The mutable per-camera connection state of `thread_process`: the identity
of `camera.curlobj`, the `connected` flag written by
`on_connect`/`on_disconnect` (`None` before the first transition), the
`reconnect` deadline (`None` when no reconnect is pending), and whether the
camera's curl handle is currently added to the shared `CurlMulti` object. -/
structure CamConn where
  handle : Nat
  connected : Option Bool
  reconnect : Option Nat
  registered : Bool
deriving Repr, DecidableEq

/-- Python truthiness of `camera.reconnect` (`None` and `0` are falsy), as
tested by `if camera.reconnect:`. -/
def truthy : Option Nat → Bool
  | none => false
  | some n => n != 0

/-- A camera's state right after `initialize`: handle added to the
`CurlMulti`, no transition observed yet. -/
def initCam (h : Nat) : CamConn :=
  { handle := h, connected := none, reconnect := none, registered := true }

/-- The body of the two `info_read` loops of `thread_process` for one
completed or errored transfer: skip the camera when a reconnect is already
pending, otherwise `on_disconnect` (which sets `self.connected = False`) and
arm `camera.reconnect = time.time() + 5`.  The curl handle is not removed. -/
def markDisconnected (now : Nat) (c : CamConn) : CamConn :=
  if truthy c.reconnect then c
  else { c with connected := some false, reconnect := some (now + 5) }

/-- `camera = next(filter(lambda x: x.curlobj == curlobj, self.cameras))`
followed by the disconnect handling: only the first camera owning the
reported handle is touched. -/
def processCompletion (h now : Nat) : List CamConn → List CamConn
  | [] => []
  | c :: rest =>
    if c.handle = h then markDisconnected now c :: rest
    else c :: processCompletion h now rest

/-- One camera's step of the reconnect sweep
(`if camera.reconnect and camera.reconnect < time.time():`): when the deadline
has strictly passed, `remove_handle` immediately followed by `add_handle`
(the handle stays registered) and `camera.reconnect = None`. -/
def sweepCam (now : Nat) (c : CamConn) : CamConn :=
  if truthy c.reconnect ∧ c.reconnect.getD 0 < now then
    { c with reconnect := none, registered := true }
  else c

/-- The `for camera in self.cameras:` sweep over all cameras. -/
def sweep (now : Nat) (cams : List CamConn) : List CamConn :=
  cams.map (sweepCam now)

/-- One observable step of the reconciliation block: either `info_read`
reports a completed/errored transfer on one handle, or a sweep pass runs. -/
inductive MuxStep where
  | completion (h now : Nat)
  | sweepPass (now : Nat)
deriving Repr, DecidableEq

/-- Apply one step to the camera list. -/
def applyStep : MuxStep → List CamConn → List CamConn
  | .completion h now, cams => processCompletion h now cams
  | .sweepPass now, cams => sweep now cams

/-- The camera lists reachable by the worker loop from an `initialize` that
registered one handle per camera. -/
inductive ReachableMux : List CamConn → Prop
  | start (hs : List Nat) : ReachableMux (hs.map initCam)
  | step (s : MuxStep) {cams : List CamConn} :
      ReachableMux cams → ReachableMux (applyStep s cams)

/-! ## Class-level attributes of `DahuaMQTT`

`DahuaMQTT` declares `cameras = []`, `curl_multiobj = pycurl.CurlMulti()`,
`num_curlobj = 0` and `kill_thread = False` in the class body, so all four
names start out as attributes of the class object, evaluated once at class
creation.  Python attribute semantics: reading `self.x` returns the instance
attribute when one exists and the class attribute otherwise; assigning
`self.x = v` (including the assignment hidden in `self.x += v`) always creates
or overwrites an *instance* attribute; mutating the object that `self.x`
refers to (`.append(...)`, `.add_handle(...)`) acts on the shared class-level
object.  This model keeps two instances of the class, the contents of the one
class-level `cameras` list and `CurlMulti` handle set, and the class-level
values of the two scalar attributes. -/

/-- The instance attribute dictionary of one `DahuaMQTT` instance, restricted
to the two scalar names the methods assign through `self`. -/
structure DahuaInst where
  numCurlobjAttr : Option Nat
  killThreadAttr : Option Bool
deriving Repr, DecidableEq

/-- A fresh instance: its attribute dictionary holds neither name. -/
def freshInst : DahuaInst :=
  { numCurlobjAttr := none, killThreadAttr := none }

/-- The shared class-level state plus two instances `instA` and `instB`. -/
structure PyWorld where
  /-- Contents (camera object ids) of the single class-level `cameras` list. -/
  classCameras : List Nat
  /-- Handles added to the single class-level `pycurl.CurlMulti()` object. -/
  classMultiHandles : List Nat
  /-- Class attribute `num_curlobj` (never reassigned on the class). -/
  classNumCurlobj : Nat
  /-- Class attribute `kill_thread` (never reassigned on the class). -/
  classKillThread : Bool
  instA : DahuaInst
  instB : DahuaInst
deriving Repr, DecidableEq

/-- The world right after the class body has executed, with two fresh
instances. -/
def initialWorld : PyWorld :=
  { classCameras := [], classMultiHandles := [], classNumCurlobj := 0,
    classKillThread := false, instA := freshInst, instB := freshInst }

/-- Reading `self.num_curlobj`. -/
def getNumCurlobj (w : PyWorld) (i : DahuaInst) : Nat :=
  i.numCurlobjAttr.getD w.classNumCurlobj

/-- Reading `self.kill_thread`. -/
def getKillThread (w : PyWorld) (i : DahuaInst) : Bool :=
  i.killThreadAttr.getD w.classKillThread

/-- Which of the two instances a method is invoked on. -/
inductive Inst where
  | A
  | B
deriving Repr, DecidableEq

/-- `DahuaMQTT.initialize` on the given instance with the given configured
cameras (one fresh curl handle per camera, identified by the camera id):
each iteration runs `self.cameras.append(dahuacam)` (mutating the shared
class-level list), `self.curl_multiobj.add_handle(curlobj)` (mutating the
shared class-level `CurlMulti`), and `self.num_curlobj += 1` (reading through
the attribute chain, then binding an instance attribute). -/
def runInitialize (w : PyWorld) (who : Inst) (camIds : List Nat) : PyWorld :=
  let i := match who with | .A => w.instA | .B => w.instB
  let i' : DahuaInst :=
    { i with numCurlobjAttr := some (getNumCurlobj w i + camIds.length) }
  { w with
    classCameras := w.classCameras ++ camIds,
    classMultiHandles := w.classMultiHandles ++ camIds,
    instA := match who with | .A => i' | .B => w.instA,
    instB := match who with | .A => w.instB | .B => i' }

/-- `DahuaMQTT.terminate` on the given instance: `self.kill_thread = True`
binds an instance attribute; the class attribute is untouched. -/
def runTerminate (w : PyWorld) (who : Inst) : PyWorld :=
  let setKill : DahuaInst → DahuaInst :=
    fun i => { i with killThreadAttr := some true }
  { w with
    instA := match who with | .A => setKill w.instA | .B => w.instA,
    instB := match who with | .A => w.instB | .B => setKill w.instB }

/-! ## The select branch of `thread_process`

The outer loop body starts with `ret = self.curl_multiobj.select(0.1)`;
when `ret == -1` it calls `self.on_timer()` and continues.  The names bound
by `class DahuaMQTT` in `dahua_mqtt.py` are `initialize`, `terminate` and
`thread_process`; `on_timer` is not among them. -/

/-- The method names the file `dahua_mqtt.py` defines on `DahuaMQTT`. -/
def dahuaMQTTMethods : List String :=
  ["initialize", "terminate", "thread_process"]

/-- Modelled from the spec: the host-framework base class (`hass.Hass` of
appdaemon) is not part of this repository's sources.  Per the spec, the host
exposes only logging and publish capabilities to the core (`Logger.log`,
`Publisher.publish` reached through `call_service`); in particular it defines
no `on_timer` method. -/
def hostBaseMethods : List String :=
  ["log", "call_service"]

/-- Attribute lookup for a method call `self.m()` on a `DahuaMQTT` instance:
the file's class body first, then the base class. -/
def resolvesMethod (m : String) : Bool :=
  dahuaMQTTMethods.contains m || hostBaseMethods.contains m

/-- The outer `while not self.kill_thread:` loop of `thread_process`, driven
by the list of successive `select` return values (the list ends when
`kill_thread` is observed).  A `-1` return reaches `self.on_timer()`: if the
name resolved, the loop would `continue`; otherwise the call raises
`AttributeError`, which propagates out of `thread_process` and ends the worker
thread.  Any other return value runs the inner `perform` pass and loops. -/
def runWorker : List Int → Except String Unit
  | [] => .ok ()
  | r :: rest =>
    if r = -1 then
      if resolvesMethod "on_timer" then runWorker rest
      else .error "AttributeError: DahuaMQTT object has no attribute on_timer"
    else runWorker rest

/-! # Theorems -/

/-! ## Helper lemmas -/

/-- Appending a non-empty string strictly changes a string. -/
theorem string_append_eq_self (t code : String) : t ++ code = t ↔ code = "" := by
  obtain ⟨tl⟩ := t
  obtain ⟨cl⟩ := code
  show String.mk (tl ++ cl) = String.mk tl ↔ String.mk cl = String.mk []
  constructor
  · intro h
    have h2 : tl ++ cl = tl := congrArg String.data h
    have h3 := congrArg List.length h2
    rw [List.length_append] at h3
    have h4 : cl = [] := List.length_eq_zero.mp (by omega)
    rw [h4]
  · intro h
    have h2 : cl = [] := congrArg String.data h
    rw [h2, List.append_nil]

/-- Evaluating `dictInsert` on the empty dict. -/
theorem dictInsert_nil (k v : String) : dictInsert [] k v = [(k, v)] := rfl

/-- Evaluating `dictInsert` on a singleton whose key collides. -/
theorem dictInsert_single_hit (k j v : String) :
    dictInsert [(k, j)] k v = [(k, v)] := by
  simp [dictInsert]

/-- Evaluating `dictInsert` on a singleton whose key differs. -/
theorem dictInsert_single_miss (k j k2 v : String) (h : k ≠ k2) :
    dictInsert [(k, j)] k2 v = [(k, j), (k2, v)] := by
  simp [dictInsert, h]

/-- C1: for every valid event line split across two `on_receive` calls, the
claim asserts the parser still produces the same AlarmEvent because a pending
buffer is retained per camera.  The code keeps no buffer: splitting the valid
line `Code=VideoMotion;action=Start;index=0\r\n` at byte offset 20 makes the
two deliveries publish nothing (the first fragment is logged as a parse
failure, the second is silently skipped), while the one-chunk delivery
publishes twice. -/
theorem c1_no_partial_line_buffer :
    publishesOf (on_receive cam0 "Code=VideoMotion;act" ++
      on_receive cam0 "ion=Start;index=0\r\n") = [] ∧
    on_receive cam0 "Code=VideoMotion;act" =
      [.logParseFailure
        "Failed to parse: not enough values to unpack (expected 2, got 1)"] ∧
    on_receive cam0 "ion=Start;index=0\r\n" = [] ∧
    publishesOf (on_receive cam0 ("Code=VideoMotion;act" ++ "ion=Start;index=0\r\n")) =
      [("cameras/1",
        "\x7b\"code\": \"VideoMotion\", \"action\": \"Start\", \"index\": \"0\"\x7d"),
       ("cameras/1VideoMotion", "Start")] := by
  decide

/-- C2: for the spec's own test input (whitelist containing `VideoMotion`,
line `Code=VideoMotion;action=Start;index=0`, camera topic `cameras/1`), the
per-event publish goes to the plain concatenation `cameras/1VideoMotion`, not
to the path-joined `cameras/1/VideoMotion` documented in the module docstring
and required by the claim. -/
theorem c2_topic_concatenation_divergence :
    publishesOf (on_receive cam0 "Code=VideoMotion;action=Start;index=0") =
      [("cameras/1",
        "\x7b\"code\": \"VideoMotion\", \"action\": \"Start\", \"index\": \"0\"\x7d"),
       ("cameras/1VideoMotion", "Start")] ∧
    ((publishesOf (on_receive cam0 "Code=VideoMotion;action=Start;index=0")).map
        Prod.fst).contains "cameras/1/VideoMotion" = false := by
  decide

/-- C3: a parsed record is forwarded to `on_alarm` iff its `code` value occurs
verbatim in the camera's comma-split whitelist; a rejected record produces no
effect at all (`parse_event` returns without logging or publishing). -/
theorem c3_whitelist_filter (cam : Camera) (alarm : Dict) (code : String)
    (hcode : dictGet alarm "code" = some code) :
    (code ∉ pySplit "," cam.events → parse_event cam alarm = .ok []) ∧
    (code ∈ pySplit "," cam.events → parse_event cam alarm = on_alarm cam alarm) := by
  unfold parse_event
  rw [hcode]
  constructor
  · intro h
    simp only [if_neg h]
  · intro h
    simp only [if_pos h]

/-- Witness for C3: with whitelist `VideoMotion,VideoBlind`, the record for
code `VideoLoss` is rejected with zero effects. -/
theorem c3_whitelist_filter_witness :
    parse_event cam0 [("code", "VideoLoss"), ("action", "Start")] = .ok [] :=
  (c3_whitelist_filter cam0 [("code", "VideoLoss"), ("action", "Start")]
    "VideoLoss" (by decide)).1 (by decide)

/-- C4: inside one chunk, a `Code=`-marked line whose `;`-separated pairs fail
to destructure contributes exactly one logged parse failure and nothing else,
and the surrounding lines of the same chunk are processed exactly as they
would be without it (`on_receive` is `processLines` applied to the chunk's
line split, so one bad line never aborts the stream). -/
theorem c4_per_line_error_recovery (cam : Camera) (pre post : List String)
    (bad e : String) (hmark : pyStartsWith bad "Code=" = true)
    (hfail : parsePairs (pySplit ";" bad) [] = .error e) :
    processLines cam (pre ++ bad :: post) =
      processLines cam pre ++
        Effect.logParseFailure ("Failed to parse: " ++ e) :: processLines cam post := by
  have hb : bad ≠ "HTTP/1.1 200 OK" := by
    intro h
    rw [h] at hmark
    exact absurd hmark (by decide)
  induction pre with
  | nil =>
    simp only [List.nil_append, processLines, processLine, if_neg hb, hmark,
      if_pos, hfail]
    rfl
  | cons l ls ih =>
    simp only [List.cons_append, processLines, List.append_eq, ih,
      List.append_assoc]

/-- Witness for C4: the spec's test chunk `Code=Foo;badpair` followed by a
valid whitelisted line. -/
theorem c4_per_line_error_recovery_witness :
    processLines cam0
        ([] ++ "Code=Foo;badpair" :: ["Code=VideoMotion;action=Start;index=0"]) =
      processLines cam0 [] ++
        Effect.logParseFailure
          "Failed to parse: not enough values to unpack (expected 2, got 1)" ::
          processLines cam0 ["Code=VideoMotion;action=Start;index=0"] :=
  c4_per_line_error_recovery cam0 [] ["Code=VideoMotion;action=Start;index=0"]
    "Code=Foo;badpair" "not enough values to unpack (expected 2, got 1)"
    (by decide) (by rfl)

/-- C10: `on_alarm` issues its publishes from a two-entry `dict` literal whose
keys are the camera topic and the camera topic concatenated with the code
value; with an empty code the keys collide and a single publish is issued,
with a non-empty code exactly two are. -/
theorem c10_dict_key_collision (cam : Camera) (state : Dict) (code action : String)
    (hcode : dictGet state "code" = some code)
    (haction : dictGet state "action" = some action) :
    (on_alarm cam state).map (fun effs => (publishesOf effs).length) =
      .ok (if code = "" then 1 else 2) := by
  unfold on_alarm
  rw [hcode, haction]
  dsimp only
  by_cases hc : code = ""
  · subst hc
    rw [dictInsert_nil, (string_append_eq_self _ _).mpr rfl, dictInsert_single_hit]
    rfl
  · have ht : cam.topic ≠ cam.topic ++ code := fun h =>
      hc ((string_append_eq_self _ _).mp h.symm)
    rw [dictInsert_nil, dictInsert_single_miss _ _ _ _ ht]
    simp only [if_neg hc]
    rfl

/-- Witness for C10: an accepted record with empty code yields one publish. -/
theorem c10_dict_key_collision_witness :
    (on_alarm cam0 [("code", ""), ("action", "Start")]).map
        (fun effs => (publishesOf effs).length) =
      .ok (if ("" : String) = "" then 1 else 2) :=
  c10_dict_key_collision cam0 [("code", ""), ("action", "Start")] "" "Start"
    (by decide) (by decide)

/-- `markDisconnected` never touches the handle or its registration. -/
theorem markDisconnected_frame (now : Nat) (c : CamConn) :
    (markDisconnected now c).handle = c.handle ∧
    (markDisconnected now c).registered = c.registered := by
  unfold markDisconnected
  split
  · exact ⟨rfl, rfl⟩
  · exact ⟨rfl, rfl⟩

/-- `sweepCam` keeps a registered handle registered. -/
theorem sweepCam_registered (now : Nat) (c : CamConn) (h : c.registered = true) :
    (sweepCam now c).registered = true := by
  unfold sweepCam
  split
  · rfl
  · exact h

/-- `processCompletion` preserves the length of the camera list. -/
theorem processCompletion_length (h now : Nat) (cams : List CamConn) :
    (processCompletion h now cams).length = cams.length := by
  induction cams with
  | nil => rfl
  | cons c rest ih =>
    unfold processCompletion
    by_cases hc : c.handle = h
    · simp [hc]
    · simp [hc, ih]

/-- C5 counterexample: the transport error is observed at `T = 10`, arming the
deadline `T + 5 = 15`; the claim says the sweep re-arms the camera at the
first check at or after `T + 5`, but a sweep check at exactly time `15` leaves
the camera pending, because the code tests `camera.reconnect < time.time()`
strictly. -/
theorem c5_boundary_counterexample :
    markDisconnected 10 (initCam 1) =
      { handle := 1, connected := some false, reconnect := some 15,
        registered := true } ∧
    10 + 5 ≤ 15 ∧
    sweepCam 15
        { handle := 1, connected := some false, reconnect := some 15,
          registered := true } =
      { handle := 1, connected := some false, reconnect := some 15,
        registered := true } := by
  decide

/-- C5 (amended): a completion or error observed at time `T` on a camera with
no pending reconnect arms the deadline `T + 5`; every sweep check at a time
`≤ T + 5` leaves the camera untouched (so no reconnection attempt happens at
or before `T + 5`), every sweep check strictly after `T + 5` re-arms it
(clearing the deadline, handle registered); and after a re-arm a new failure
at any time `T2` arms `T2 + 5` again — a fixed five-second delay with no retry
bound and no backoff. -/
theorem c5_reconnect_timing (T : Nat) (c : CamConn) (hpend : c.reconnect = none) :
    (markDisconnected T c).reconnect = some (T + 5) ∧
    (∀ n, n ≤ T + 5 → sweepCam n (markDisconnected T c) = markDisconnected T c) ∧
    (∀ n, T + 5 < n →
      (sweepCam n (markDisconnected T c)).reconnect = none ∧
      (sweepCam n (markDisconnected T c)).registered = true) ∧
    (∀ n T2, T + 5 < n →
      (markDisconnected T2 (sweepCam n (markDisconnected T c))).reconnect =
        some (T2 + 5)) := by
  have hmk : markDisconnected T c =
      { c with connected := some false, reconnect := some (T + 5) } := by
    unfold markDisconnected
    rw [hpend]
    rfl
  have htr : truthy (some (T + 5)) = true := by
    simp [truthy]
  refine ⟨by rw [hmk], ?_, ?_, ?_⟩
  · intro n hn
    rw [hmk]
    unfold sweepCam
    rw [if_neg]
    intro hcon
    exact absurd hcon.2 (by simp; omega)
  · intro n hn
    rw [hmk]
    unfold sweepCam
    rw [if_pos ⟨htr, by simpa using hn⟩]
    exact ⟨rfl, rfl⟩
  · intro n T2 hn
    have h2 : sweepCam n (markDisconnected T c) =
        { handle := c.handle, connected := some false, reconnect := none,
          registered := true } := by
      rw [hmk]
      unfold sweepCam
      rw [if_pos ⟨htr, by simpa using hn⟩]
    rw [h2]
    rfl

/-- Witness for C5 (amended), at `T = 10` on a freshly initialized camera:
deadline `15`, unchanged by the sweep at `15`, cleared by the sweep at `16`. -/
theorem c5_reconnect_timing_witness :
    (markDisconnected 10 (initCam 7)).reconnect = some 15 ∧
    sweepCam 15 (markDisconnected 10 (initCam 7)) = markDisconnected 10 (initCam 7) ∧
    (sweepCam 16 (markDisconnected 10 (initCam 7))).reconnect = none :=
  ⟨(c5_reconnect_timing 10 (initCam 7) rfl).1,
   (c5_reconnect_timing 10 (initCam 7) rfl).2.1 15 (by decide),
   ((c5_reconnect_timing 10 (initCam 7) rfl).2.2.1 16 (by decide)).1⟩

/-- C6 counterexample: the state reached by initializing one camera and
observing a transport error at time `10` is a pending-reconnect state (its
deadline is armed), yet the camera's curl handle is still registered with the
shared `CurlMulti` object — the code never removes the handle while the
camera waits out its reconnect delay. -/
theorem c6_pending_handle_counterexample :
    ReachableMux
      [{ handle := 1, connected := some false, reconnect := some 15,
         registered := true }] ∧
    ({ handle := 1, connected := some false, reconnect := some 15,
       registered := true } : CamConn).reconnect ≠ none ∧
    ({ handle := 1, connected := some false, reconnect := some 15,
       registered := true } : CamConn).registered = true := by
  refine ⟨?_, by decide, rfl⟩
  have hstep := ReachableMux.step (MuxStep.completion 1 10) (ReachableMux.start [1])
  have heq : applyStep (MuxStep.completion 1 10) ([1].map initCam) =
      [{ handle := 1, connected := some false, reconnect := some 15,
         registered := true }] := by decide
  rw [heq] at hstep
  exact hstep

/-- Completion handling preserves "every handle is registered". -/
theorem processCompletion_registered_mem (h now : Nat) (cams : List CamConn)
    (hall : ∀ c ∈ cams, c.registered = true) :
    ∀ c ∈ processCompletion h now cams, c.registered = true := by
  induction cams with
  | nil =>
    intro c hc
    cases hc
  | cons c0 rest ih =>
    intro c hc
    unfold processCompletion at hc
    by_cases hh : c0.handle = h
    · rw [if_pos hh] at hc
      rcases List.mem_cons.mp hc with hc | hc
      · rw [hc, (markDisconnected_frame now c0).2]
        exact hall c0 (List.mem_cons_self c0 rest)
      · exact hall c (List.mem_cons_of_mem c0 hc)
    · rw [if_neg hh] at hc
      rcases List.mem_cons.mp hc with hc | hc
      · rw [hc]
        exact hall c0 (List.mem_cons_self c0 rest)
      · exact ih (fun c2 hc2 => hall c2 (List.mem_cons_of_mem c0 hc2)) c hc

/-- C6 (amended): the reconnect deadline doubles as the pending-reconnect
marker (`if camera.reconnect:` is the phase test, so the deadline is set
exactly in that phase), but the transport handle stays registered with the
multiplexer in every reachable state — including while a camera waits out its
reconnect delay; it is only removed and immediately re-added at the moment of
re-arming. -/
theorem c6_handle_always_registered (cams : List CamConn)
    (hr : ReachableMux cams) : ∀ c ∈ cams, c.registered = true := by
  induction hr with
  | start hs =>
    intro c hc
    obtain ⟨h, _, rfl⟩ := List.mem_map.mp hc
    rfl
  | step s hr ih =>
    intro c hc
    cases s with
    | completion h now =>
      rename_i cams2
      exact processCompletion_registered_mem h now cams2 ih c hc
    | sweepPass now =>
      rename_i cams2
      obtain ⟨c0, hc0, rfl⟩ := List.mem_map.mp hc
      exact sweepCam_registered now c0 (ih c0 hc0)

/-- Witness for C6 (amended): the pending camera reached after the error at
time `10` still holds its registered handle. -/
theorem c6_handle_always_registered_witness :
    ({ handle := 1, connected := some false, reconnect := some 15,
       registered := true } : CamConn).registered = true :=
  c6_handle_always_registered
    (applyStep (MuxStep.completion 1 10) ([1].map initCam))
    (ReachableMux.step (MuxStep.completion 1 10) (ReachableMux.start [1]))
    _ (by decide)

/-- C7: handling a completion or error reported for handle `h` rewrites only
the first camera owning `h`: every list position whose camera's handle
differs from `h` is left exactly as it was, and even the affected camera
keeps its handle and its registration (only `connected` and `reconnect` can
change). -/
theorem c7_failure_isolation (h now : Nat) (cams : List CamConn) (i : Nat) :
    (∀ c, cams.get? i = some c → c.handle ≠ h →
      (processCompletion h now cams).get? i = some c) ∧
    ((processCompletion h now cams).get? i).map CamConn.handle =
      (cams.get? i).map CamConn.handle ∧
    ((processCompletion h now cams).get? i).map CamConn.registered =
      (cams.get? i).map CamConn.registered := by
  induction cams generalizing i with
  | nil =>
    refine ⟨fun c hc => ?_, rfl, rfl⟩
    rw [List.get?_nil] at hc
    cases hc
  | cons c0 rest ih =>
    by_cases hc : c0.handle = h
    · have hpc : processCompletion h now (c0 :: rest) =
          markDisconnected now c0 :: rest := by
        show (if c0.handle = h then markDisconnected now c0 :: rest
          else c0 :: processCompletion h now rest) = _
        rw [if_pos hc]
      rw [hpc]
      cases i with
      | zero =>
        refine ⟨fun c hsome hne => ?_, ?_, ?_⟩
        · exact absurd (Option.some.inj hsome ▸ hc) hne
        · show some (markDisconnected now c0).handle = some c0.handle
          rw [(markDisconnected_frame now c0).1]
        · show some (markDisconnected now c0).registered = some c0.registered
          rw [(markDisconnected_frame now c0).2]
      | succ j =>
        exact ⟨fun c hsome _ => hsome, rfl, rfl⟩
    · have hpc : processCompletion h now (c0 :: rest) =
          c0 :: processCompletion h now rest := by
        show (if c0.handle = h then markDisconnected now c0 :: rest
          else c0 :: processCompletion h now rest) = _
        rw [if_neg hc]
      rw [hpc]
      cases i with
      | zero =>
        exact ⟨fun c hsome _ => hsome, rfl, rfl⟩
      | succ j =>
        exact ih j

/-- Witness for C7: an error on handle `1` leaves the camera owning handle `2`
untouched. -/
theorem c7_failure_isolation_witness :
    (processCompletion 1 20 [initCam 1, initCam 2]).get? 1 = some (initCam 2) :=
  (c7_failure_isolation 1 20 [initCam 1, initCam 2] 1).1 (initCam 2) rfl
    (by decide)

/-- C8 counterexample: starting from the class as written, `terminate` on one
instance sets `self.kill_thread = True`, which binds an instance attribute;
reading `kill_thread` through the other instance still yields the untouched
class attribute `False`.  This falsifies the claim that setting `kill_thread`
on one instance affects all of them. -/
theorem c8_kill_thread_counterexample :
    getKillThread (runTerminate initialWorld Inst.A)
      (runTerminate initialWorld Inst.A).instB = false ∧
    getKillThread (runTerminate initialWorld Inst.A)
      (runTerminate initialWorld Inst.A).instA = true := by
  decide

/-- C8 (amended): the class-level `cameras` list and `CurlMulti` object are
genuinely shared — `initialize` on a second instance appends its cameras to
the same list and registers its handles with the same multi object — but the
scalar class attributes are shared only until first assignment:
`self.num_curlobj += 1` and `self.kill_thread = True` bind instance
attributes that shadow the class attribute, so `terminate` on one instance
does not change what any other instance reads. -/
theorem c8_class_attribute_sharing (w : PyWorld) (camIds : List Nat) :
    (runInitialize w Inst.B camIds).classCameras = w.classCameras ++ camIds ∧
    (runInitialize w Inst.B camIds).classMultiHandles =
      w.classMultiHandles ++ camIds ∧
    (runInitialize w Inst.B camIds).instB.numCurlobjAttr =
      some (getNumCurlobj w w.instB + camIds.length) ∧
    getKillThread (runTerminate w Inst.A) (runTerminate w Inst.A).instB =
      getKillThread w w.instB ∧
    getKillThread (runTerminate w Inst.A) (runTerminate w Inst.A).instA = true :=
  ⟨rfl, rfl, rfl, rfl, rfl⟩

/-- `runWorker` exits cleanly when `select` never returns `-1` before the
shutdown flag is observed. -/
theorem runWorker_ok_of_no_neg_one (pre : List Int) (hpre : (-1 : Int) ∉ pre) :
    runWorker pre = .ok () := by
  induction pre with
  | nil => rfl
  | cons r rs ih =>
    have hr : ¬ r = -1 := fun hh => hpre (hh ▸ List.mem_cons_self r rs)
    unfold runWorker
    rw [if_neg hr]
    exact ih (fun hh => hpre (List.mem_cons_of_mem r hh))

/-- C9: `on_timer` is bound neither in the class body of `DahuaMQTT` nor by
the host base class, so the first `select` return of `-1` makes the worker
loop raise `AttributeError` and die, and the loop survives exactly as long as
`select` never returns `-1`. -/
theorem c9_on_timer_attribute_error (pre post : List Int)
    (hpre : (-1 : Int) ∉ pre) :
    resolvesMethod "on_timer" = false ∧
    runWorker (pre ++ -1 :: post) =
      .error "AttributeError: DahuaMQTT object has no attribute on_timer" ∧
    runWorker pre = .ok () := by
  refine ⟨by decide, ?_, runWorker_ok_of_no_neg_one pre hpre⟩
  induction pre with
  | nil =>
    show runWorker (-1 :: post) = _
    unfold runWorker
    rw [if_pos rfl, if_neg (by decide)]
  | cons r rs ih =>
    have hr : ¬ r = -1 := fun hh => hpre (hh ▸ List.mem_cons_self r rs)
    show runWorker (r :: (rs ++ -1 :: post)) = _
    unfold runWorker
    rw [if_neg hr]
    exact ih (fun hh => hpre (List.mem_cons_of_mem r hh))

/-- Witness for C9: two clean `select` returns followed by `-1`. -/
theorem c9_on_timer_attribute_error_witness :
    runWorker ([0, 5] ++ -1 :: []) =
      .error "AttributeError: DahuaMQTT object has no attribute on_timer" :=
  (c9_on_timer_attribute_error [0, 5] [] (by decide)).2.1

end DahuaMqtt
